import Mathlib

/-!
# Verification of the WPT efficiency-optimizer core

Shallow embedding of the optimization core of the AI-Powered WPT Efficiency
Optimizer (files `data_models.py`, `calculators.py`, `optimization_engine.py`,
result handling from `main_app.py`), together with proofs and refutations of
the specification claims about it.

Modelling conventions:
* Python `float` arithmetic is modelled by exact rational arithmetic over `ℚ`.
  `math.pi` is the exact rational value of the IEEE-754 double that CPython
  stores in `math.pi`.
* Python division raises `ZeroDivisionError` on a zero divisor (also for
  floats) and `min()` of an empty sequence raises `ValueError`; the checked
  variants of the definitions (suffix `E`) model this with `Except`.  The
  unchecked variants use the total operations of `ℚ` and are related to the
  checked ones by lemmas.
* The engine's mutable attributes (`best_mosfet_idx`, `best_mosfet_loss`, ...)
  form the state `EvalState`; the initial value `float('inf')` of the three
  best-so-far losses is modelled by `none : Option ℚ`.
-/

namespace WPT

/-- Exact rational value of the IEEE-754 double `math.pi` used by CPython. -/
def math_pi : ℚ := 884279719003555 / 281474976710656

/-! ## Data model (`data_models.py`) -/

/-- `CoilParameters` from `data_models.py`: geometry of one coil.
Lengths are in millimetres, `turns` is a Python `int`. -/
structure CoilParameters where
  turns : ℤ
  wire_diameter : ℚ
  wire_spacing : ℚ
  outer_diameter : ℚ
deriving DecidableEq

/-- Derived property `inner_diameter`:
`outer_diameter - (2 * turns * (wire_diameter + wire_spacing))`. -/
def CoilParameters.inner_diameter (c : CoilParameters) : ℚ :=
  c.outer_diameter - (2 * (c.turns : ℚ) * (c.wire_diameter + c.wire_spacing))

/-- Derived property `wire_length` (metres):
`(math.pi * turns * (outer_diameter + inner_diameter)) / 2000`. -/
def CoilParameters.wire_length (c : CoilParameters) : ℚ :=
  (math_pi * (c.turns : ℚ) * (c.outer_diameter + c.inner_diameter)) / 2000

/-- `SystemParameters` from `data_models.py`. -/
structure SystemParameters where
  coupling_coefficient : ℚ
  tx_coil : CoilParameters
  rx_coil : CoilParameters
  equivalent_resistance : ℚ
  mosfet_count : ℤ
  diode_count : ℤ
  id_rms : ℚ
  vds : ℚ
  ids : ℚ
  i_coil : ℚ
  id_eff : ℚ
  id_mean : ℚ
  vd : ℚ
  r1_unit : ℚ
  r2_unit : ℚ
deriving DecidableEq

/-- One row of the MOSFET catalog.  The source reads the row positionally
(`iloc[0]` = name, `iloc[1]` = price, `iloc[4]`..`iloc[10]` = electrical
parameters in catalog units); the fields keep the column numbers. -/
structure MosfetRow where
  name : String
  price : ℚ
  col4 : ℚ
  col5 : ℚ
  col6 : ℚ
  col7 : ℚ
  col8 : ℚ
  col9 : ℚ
  col10 : ℚ
deriving DecidableEq

/-- One row of the diode catalog (`iloc[0]` = name, `iloc[1]` = price,
`iloc[4]` = forward voltage, `iloc[5]` = junction capacitance in pF). -/
structure DiodeRow where
  name : String
  price : ℚ
  col4 : ℚ
  col5 : ℚ
deriving DecidableEq

/-- `OptimizationResults` from `data_models.py`. -/
structure OptimizationResults where
  best_frequency : ℚ
  best_loss : ℚ
  best_mosfet_name : String
  best_diode_name : String
  mosfet_loss : ℚ
  diode_loss : ℚ
  coil_loss : ℚ
  tx_inductance : ℚ
  rx_inductance : ℚ
  tx_resistance : ℚ
  rx_resistance : ℚ
  system_efficiency : ℚ
deriving DecidableEq

/-! ## Calculators (`calculators.py`) -/

namespace ComponentCalculator

/-- `ComponentCalculator.calculate_coil_inductance`: Wheeler formula. -/
def calculate_coil_inductance (coil : CoilParameters) : ℚ :=
  let inner_inches := coil.inner_diameter / 25.4
  let width_inches := (coil.wire_spacing / 25.4 + coil.wire_diameter / 25.4) * (coil.turns : ℚ)
  let avg_radius := (inner_inches + width_inches) / 2
  ((avg_radius ^ 2) * (coil.turns : ℚ) ^ 2) / (8 * avg_radius + 11 * width_inches) * (10 : ℚ) ^ (-6 : ℤ)

/-- `ComponentCalculator.calculate_coil_resistance`. -/
def calculate_coil_resistance (coil : CoilParameters) (resistance_per_unit : ℚ) : ℚ :=
  coil.wire_length * resistance_per_unit

end ComponentCalculator

namespace MOSFETLossCalculator

/-- `MOSFETLossCalculator.calculate_conduction_loss`. -/
def calculate_conduction_loss (rdson id_rms : ℚ) : ℚ :=
  rdson * id_rms ^ 2

/-- `MOSFETLossCalculator.calculate_switching_loss`. -/
def calculate_switching_loss (tr tf vds ids frequency : ℚ) : ℚ :=
  (vds * ids * (tr + tf) * frequency) / 2

/-- `MOSFETLossCalculator.calculate_gate_loss`. -/
def calculate_gate_loss (qg vgs_max frequency : ℚ) : ℚ :=
  qg * vgs_max * frequency

/-- `MOSFETLossCalculator.calculate_reverse_recovery_loss`. -/
def calculate_reverse_recovery_loss (qrr vsd frequency : ℚ) : ℚ :=
  (qrr * vsd * frequency) / 2

end MOSFETLossCalculator

namespace DiodeLossCalculator

/-- `DiodeLossCalculator.calculate_conduction_loss`. -/
def calculate_conduction_loss (rd vf id_eff id_mean : ℚ) : ℚ :=
  rd * id_eff ^ 2 + vf * id_mean

/-- `DiodeLossCalculator.calculate_switching_loss`. -/
def calculate_switching_loss (qc vd frequency : ℚ) : ℚ :=
  qc * vd * frequency

/-- `DiodeLossCalculator.calculate_reverse_recovery_loss`. -/
def calculate_reverse_recovery_loss (qrr vd frequency : ℚ) : ℚ :=
  (qrr * vd * frequency) / 2

end DiodeLossCalculator

namespace CoilLossCalculator

/-- Numerator of the coupling-efficiency expression in
`CoilLossCalculator.calculate_efficiency`. -/
def coil_numerator (sp : SystemParameters) (frequency tx_inductance rx_inductance : ℚ) : ℚ :=
  sp.equivalent_resistance * tx_inductance * rx_inductance *
    (2 * math_pi * frequency * sp.coupling_coefficient) ^ 2

/-- Denominator of the coupling-efficiency expression in
`CoilLossCalculator.calculate_efficiency`. -/
def coil_denominator (sp : SystemParameters)
    (frequency tx_inductance rx_inductance tx_resistance rx_resistance : ℚ) : ℚ :=
  (rx_resistance + sp.equivalent_resistance) *
    (tx_resistance * (rx_resistance + sp.equivalent_resistance) +
      (2 * math_pi * frequency * sp.coupling_coefficient) ^ 2 * tx_inductance * rx_inductance)

/-- `CoilLossCalculator.calculate_efficiency` (total variant, `ℚ` division). -/
def calculate_efficiency (sp : SystemParameters)
    (frequency tx_inductance rx_inductance tx_resistance rx_resistance : ℚ) : ℚ :=
  coil_numerator sp frequency tx_inductance rx_inductance /
    coil_denominator sp frequency tx_inductance rx_inductance tx_resistance rx_resistance

/-- `CoilLossCalculator.calculate_loss` (total variant):
`coil_power * (1 - efficiency)` with `coil_power = vds * i_coil`. -/
def calculate_loss (sp : SystemParameters)
    (frequency tx_inductance rx_inductance tx_resistance rx_resistance : ℚ) : ℚ :=
  let efficiency := calculate_efficiency sp frequency tx_inductance rx_inductance
    tx_resistance rx_resistance
  let coil_power := sp.vds * sp.i_coil
  coil_power * (1 - efficiency)

end CoilLossCalculator

/-! ## Python primitives used by the engine -/

/-- Errors Python raises in the paths the core exercises. -/
inductive PyErr where
  | valueError
  | zeroDivisionError
deriving DecidableEq

/-- Python `min` on a list; the source only applies it to non-empty lists
and the result on `[]` is junk (the checked variant `pyMinE` raises). -/
def pyMin : List ℚ → ℚ
  | [] => 0
  | x :: xs => xs.foldl min x

/-- Checked Python `min`: `min([])` raises `ValueError`. -/
def pyMinE : List ℚ → Except PyErr ℚ
  | [] => .error .valueError
  | x :: xs => .ok (xs.foldl min x)

/-- Python `list.index`: index of the first occurrence of a value. -/
def pyIndex : List ℚ → ℚ → ℕ
  | [], _ => 0
  | x :: xs, v => if x = v then 0 else pyIndex xs v + 1

/-- Checked Python float division: raises `ZeroDivisionError` on a zero
divisor, also for floats. -/
def pyDiv (a b : ℚ) : Except PyErr ℚ :=
  if b = 0 then .error .zeroDivisionError else .ok (a / b)

/-- Error-propagating map over a list (the straight-line loop body of the
source propagates the first exception). -/
def mapExcept (g : α → Except PyErr β) : List α → Except PyErr (List β)
  | [] => .ok []
  | x :: xs => do
    let y ← g x
    let ys ← mapExcept g xs
    pure (y :: ys)

/-! ## Per-row losses and price/performance scores
(loop bodies of `OptimizationEngine.objective_function`) -/

/-- Total loss of one MOSFET row (`objective_function` lines 60-78): catalog
values are scaled to SI units, the four loss terms are summed and multiplied
by the unit count. -/
def mosfet_total_loss (sp : SystemParameters) (frequency : ℚ) (row : MosfetRow) : ℚ :=
  let rdson := row.col4 * (10 : ℚ) ^ (-3 : ℤ)
  let vsd := row.col5
  let vgs_max := row.col6
  let tr := row.col7 * (10 : ℚ) ^ (-9 : ℤ)
  let tf := row.col8 * (10 : ℚ) ^ (-9 : ℤ)
  let qg := row.col9 * (10 : ℚ) ^ (-9 : ℤ)
  let qrr := row.col10 * (10 : ℚ) ^ (-9 : ℤ)
  let conduction_loss := MOSFETLossCalculator.calculate_conduction_loss rdson sp.id_rms
  let switching_loss := MOSFETLossCalculator.calculate_switching_loss tr tf sp.vds sp.ids frequency
  let gate_loss := MOSFETLossCalculator.calculate_gate_loss qg vgs_max frequency
  let reverse_recovery_loss := MOSFETLossCalculator.calculate_reverse_recovery_loss qrr vsd frequency
  (conduction_loss + switching_loss + gate_loss + reverse_recovery_loss) * (sp.mosfet_count : ℚ)

/-- Blended score of one MOSFET row (`objective_function` line 79):
`price_performance = mosfet_total_loss * 0.5 + 0.5 * (mosfet_price / 20)`. -/
def mosfet_price_performance (sp : SystemParameters) (frequency : ℚ) (row : MosfetRow) : ℚ :=
  mosfet_total_loss sp frequency row * 0.5 + 0.5 * (row.price / 20)

/-- Total loss of one diode row (`objective_function` lines 98-115, total
variant with `ℚ` division in `rd = vf / id_mean`). -/
def diode_total_loss (sp : SystemParameters) (frequency : ℚ) (row : DiodeRow) : ℚ :=
  let vf := row.col4
  let c_d := row.col5 * (10 : ℚ) ^ (-12 : ℤ)
  let qrr : ℚ := 0
  let qc := sp.vd * c_d
  let rd := vf / sp.id_mean
  let conduction_loss := DiodeLossCalculator.calculate_conduction_loss rd vf sp.id_eff sp.id_mean
  let switching_loss := DiodeLossCalculator.calculate_switching_loss qc sp.vd frequency
  let reverse_recovery_loss := DiodeLossCalculator.calculate_reverse_recovery_loss qrr sp.vd frequency
  (conduction_loss + switching_loss + reverse_recovery_loss) * (sp.diode_count : ℚ)

/-- Blended score of one diode row (`objective_function` line 116). -/
def diode_price_performance (sp : SystemParameters) (frequency : ℚ) (row : DiodeRow) : ℚ :=
  diode_total_loss sp frequency row * 0.5 + 0.5 * (row.price / 20)

/-- Checked total loss of one diode row: `rd = vf / id_mean` raises
`ZeroDivisionError` when `id_mean = 0`. -/
def diode_total_lossE (sp : SystemParameters) (frequency : ℚ) (row : DiodeRow) :
    Except PyErr ℚ := do
  let vf := row.col4
  let c_d := row.col5 * (10 : ℚ) ^ (-12 : ℤ)
  let qrr : ℚ := 0
  let qc := sp.vd * c_d
  let rd ← pyDiv vf sp.id_mean
  let conduction_loss := DiodeLossCalculator.calculate_conduction_loss rd vf sp.id_eff sp.id_mean
  let switching_loss := DiodeLossCalculator.calculate_switching_loss qc sp.vd frequency
  let reverse_recovery_loss := DiodeLossCalculator.calculate_reverse_recovery_loss qrr sp.vd frequency
  pure ((conduction_loss + switching_loss + reverse_recovery_loss) * (sp.diode_count : ℚ))

/-- Checked blended score of one diode row. -/
def diode_price_performanceE (sp : SystemParameters) (frequency : ℚ) (row : DiodeRow) :
    Except PyErr ℚ := do
  let t ← diode_total_lossE sp frequency row
  pure (t * 0.5 + 0.5 * (row.price / 20))

/-- Checked `CoilLossCalculator.calculate_efficiency`: the float division
`numerator / denominator` raises `ZeroDivisionError` on a zero denominator. -/
def calculate_efficiencyE (sp : SystemParameters)
    (frequency tx_inductance rx_inductance tx_resistance rx_resistance : ℚ) :
    Except PyErr ℚ :=
  pyDiv (CoilLossCalculator.coil_numerator sp frequency tx_inductance rx_inductance)
    (CoilLossCalculator.coil_denominator sp frequency tx_inductance rx_inductance
      tx_resistance rx_resistance)

/-- Checked `CoilLossCalculator.calculate_loss`. -/
def calculate_lossE (sp : SystemParameters)
    (frequency tx_inductance rx_inductance tx_resistance rx_resistance : ℚ) :
    Except PyErr ℚ := do
  let efficiency ← calculate_efficiencyE sp frequency tx_inductance rx_inductance
    tx_resistance rx_resistance
  let coil_power := sp.vds * sp.i_coil
  pure (coil_power * (1 - efficiency))

/-! ## The optimization engine (`optimization_engine.py`) -/

/-- The immutable part of an `OptimizationEngine` instance: the system
parameters and the two catalogs handed to `__init__`. -/
structure Engine where
  system_params : SystemParameters
  mosfet_df : List MosfetRow
  diode_df : List DiodeRow
deriving DecidableEq

/-- `self.tx_inductance` computed in `__init__`. -/
def Engine.tx_inductance (e : Engine) : ℚ :=
  ComponentCalculator.calculate_coil_inductance e.system_params.tx_coil

/-- `self.rx_inductance` computed in `__init__`. -/
def Engine.rx_inductance (e : Engine) : ℚ :=
  ComponentCalculator.calculate_coil_inductance e.system_params.rx_coil

/-- `self.tx_resistance` computed in `__init__`. -/
def Engine.tx_resistance (e : Engine) : ℚ :=
  ComponentCalculator.calculate_coil_resistance e.system_params.tx_coil e.system_params.r1_unit

/-- `self.rx_resistance` computed in `__init__`. -/
def Engine.rx_resistance (e : Engine) : ℚ :=
  ComponentCalculator.calculate_coil_resistance e.system_params.rx_coil e.system_params.r2_unit

/-- The list of blended MOSFET scores built by the first loop of
`objective_function` (`mosfet_losses`). -/
def mosfet_scores (e : Engine) (frequency : ℚ) : List ℚ :=
  e.mosfet_df.map (mosfet_price_performance e.system_params frequency)

/-- The list of blended diode scores built by the second loop of
`objective_function` (`diode_losses`). -/
def diode_scores (e : Engine) (frequency : ℚ) : List ℚ :=
  e.diode_df.map (diode_price_performance e.system_params frequency)

/-- The coil loss computed once per `objective_function` call. -/
def coil_loss_at (e : Engine) (frequency : ℚ) : ℚ :=
  CoilLossCalculator.calculate_loss e.system_params frequency
    e.tx_inductance e.rx_inductance e.tx_resistance e.rx_resistance

/-- The mutable attributes of an `OptimizationEngine`.  `none` in a
best-so-far field models its initial value `float('inf')`. -/
structure EvalState where
  best_mosfet_idx : ℕ
  best_diode_idx : ℕ
  best_mosfet_loss : Option ℚ
  best_diode_loss : Option ℚ
  best_coil_loss : Option ℚ
  evaluation_count : ℕ
deriving DecidableEq

/-- The state set up by `__init__` (lines 31-38). -/
def initState : EvalState :=
  { best_mosfet_idx := 0
    best_diode_idx := 0
    best_mosfet_loss := none
    best_diode_loss := none
    best_coil_loss := none
    evaluation_count := 0 }

/-- Value of a best-so-far field as an extended rational (`none`, the initial
`float('inf')`, is `⊤`). -/
def infVal : Option ℚ → WithTop ℚ
  | none => ⊤
  | some q => (q : WithTop ℚ)

/-- The comparison `new_min < stored_best` of lines 151 and 156; every float
is `< float('inf')`. -/
def beats (m : ℚ) : Option ℚ → Bool
  | none => true
  | some b => decide (m < b)

/-- Lines 151-154: overwrite the best-so-far MOSFET score and index when the
new minimum is strictly smaller. -/
def update_mosfet (losses : List ℚ) (s : EvalState) : EvalState :=
  let m := pyMin losses
  if beats m s.best_mosfet_loss then
    { s with best_mosfet_loss := some m, best_mosfet_idx := pyIndex losses m }
  else s

/-- Lines 156-159: same rule, independently, for the diode. -/
def update_diode (losses : List ℚ) (s : EvalState) : EvalState :=
  let m := pyMin losses
  if beats m s.best_diode_loss then
    { s with best_diode_loss := some m, best_diode_idx := pyIndex losses m }
  else s

/-- `OptimizationEngine.objective_function` (total variant): one evaluation
at one frequency.  Returns the successor state and the objective value
`min(mosfet_losses) + min(diode_losses) + coil_loss`. -/
def objective_function (e : Engine) (s : EvalState) (frequency : ℚ) : EvalState × ℚ :=
  let mosfet_losses := mosfet_scores e frequency
  let diode_losses := diode_scores e frequency
  let coil_loss := coil_loss_at e frequency
  let min_mosfet_loss := pyMin mosfet_losses
  let min_diode_loss := pyMin diode_losses
  let total_loss := min_mosfet_loss + min_diode_loss + coil_loss
  let s1 := { s with evaluation_count := s.evaluation_count + 1 }
  let s2 := update_mosfet mosfet_losses s1
  let s3 := update_diode diode_losses s2
  let s4 := { s3 with best_coil_loss := some coil_loss }
  (s4, total_loss)

/-- Checked `objective_function`: the diode loop body divides by `id_mean`,
the coil loss divides by the coupling denominator, and the two `min(...)`
calls raise `ValueError` on an empty catalog — in exactly the order the
source executes them (MOSFET loop, diode loop, coil loss, `min`, `min`). -/
def objective_functionE (e : Engine) (s : EvalState) (frequency : ℚ) :
    Except PyErr (EvalState × ℚ) := do
  let mosfet_losses := mosfet_scores e frequency
  let diode_losses ← mapExcept (diode_price_performanceE e.system_params frequency) e.diode_df
  let coil_loss ← calculate_lossE e.system_params frequency
    e.tx_inductance e.rx_inductance e.tx_resistance e.rx_resistance
  let min_mosfet_loss ← pyMinE mosfet_losses
  let min_diode_loss ← pyMinE diode_losses
  let total_loss := min_mosfet_loss + min_diode_loss + coil_loss
  let s1 := { s with evaluation_count := s.evaluation_count + 1 }
  let s2 := update_mosfet mosfet_losses s1
  let s3 := update_diode diode_losses s2
  let s4 := { s3 with best_coil_loss := some coil_loss }
  pure (s4, total_loss)

/-- A run of the optimizer over its ordered schedule of candidate
frequencies (every `objective_function` call PSO makes, in order). -/
def run (e : Engine) (s : EvalState) (fs : List ℚ) : EvalState :=
  fs.foldl (fun st f => (objective_function e st f).1) s

/-- The successive states of a run, starting state included. -/
def states (e : Engine) (s : EvalState) (fs : List ℚ) : List EvalState :=
  fs.scanl (fun st f => (objective_function e st f).1) s

/-- The progress fraction emitted at the end of each evaluation (line 164):
`min(0.7, 0.3 + evaluation_count * 0.4 / 100)`. -/
def progress_value (evaluation_count : ℕ) : ℚ :=
  min 0.7 (0.3 + ((evaluation_count : ℚ) * 0.4 / 100))

/-- The ordered list of progress fractions the core emits during a run. -/
def run_progress (e : Engine) (s : EvalState) : List ℚ → List ℚ
  | [] => []
  | f :: fs =>
    let s' := (objective_function e s f).1
    progress_value s'.evaluation_count :: run_progress e s' fs

/-- Outcome of one `optimize()` run.  The constructor
`preIterationConfigurationError` renders the spec's claimed behaviour (a
configuration error raised before the optimizer starts); the source has no
code path producing it. -/
inductive RunOutcome where
  | preIterationConfigurationError
  | evalError (evaluation : ℕ) (err : PyErr)
  | completed (final : EvalState)
deriving DecidableEq

/-- `OptimizationEngine.optimize` (lines 169-192) performs no catalog
validation before handing the objective to PSO; PSO then evaluates the
objective at each candidate frequency of its schedule in order, and the
first exception aborts the run, tagged with the evaluation number in which
it was raised. -/
def optimizeE (e : Engine) : EvalState → List ℚ → RunOutcome
  | s, [] => .completed s
  | s, f :: fs =>
    match objective_functionE e s f with
    | .error err => .evalError (s.evaluation_count + 1) err
    | .ok (s', _) => optimizeE e s' fs

/-- Name lookup `self.mosfet_df.iloc[idx, 0]` used by `get_results`. -/
def mosfetName (df : List MosfetRow) (idx : ℕ) : String :=
  (df[idx]?.map MosfetRow.name).getD ""

/-- Name lookup `self.diode_df.iloc[idx, 0]` used by `get_results`. -/
def diodeName (df : List DiodeRow) (idx : ℕ) : String :=
  (df[idx]?.map DiodeRow.name).getD ""

/-- `OptimizationEngine.get_results` (lines 205-224).  The three best-so-far
fields are floats after any completed run; the pre-run `float('inf')` state,
on which the source's arithmetic has no exact-rational meaning, is mapped to
`none`.  Note `best_frequency` and `best_loss` are hard-coded `0.0`
placeholders ("Will be set by caller"). -/
def get_results (e : Engine) (s : EvalState) : Option OptimizationResults :=
  match s.best_mosfet_loss, s.best_diode_loss, s.best_coil_loss with
  | some m, some d, some c =>
    let coil_power := e.system_params.vds * e.system_params.i_coil
    let system_efficiency := ((coil_power - c) / (coil_power + m + d)) * 100
    some
      { best_frequency := 0
        best_loss := 0
        best_mosfet_name := mosfetName e.mosfet_df s.best_mosfet_idx
        best_diode_name := diodeName e.diode_df s.best_diode_idx
        mosfet_loss := m
        diode_loss := d
        coil_loss := c
        tx_inductance := e.tx_inductance
        rx_inductance := e.rx_inductance
        tx_resistance := e.tx_resistance
        rx_resistance := e.rx_resistance
        system_efficiency := system_efficiency }
  | _, _, _ => none

/-- The caller-side completion of the result record (`main_app.py` lines
161-168): `optimize()` returns the best point and the caller overwrites the
two placeholder fields with it. -/
def caller_results (e : Engine) (s : EvalState) (best_frequency best_loss : ℚ) :
    Option OptimizationResults :=
  (get_results e s).map (fun r => { r with best_frequency := best_frequency, best_loss := best_loss })

/-! ## Spec-side definitions used by refinement-style claims -/

/-- Spec-side switch score, written as the spec words it:
`0.5 × loss + 0.5 × (price ÷ 20)`. -/
def spec_switch_score (sp : SystemParameters) (frequency : ℚ) (row : MosfetRow) : ℚ :=
  0.5 * mosfet_total_loss sp frequency row + 0.5 * (row.price / 20)

/-- Spec-side rectifier score, written as the spec words it. -/
def spec_rectifier_score (sp : SystemParameters) (frequency : ℚ) (row : DiodeRow) : ℚ :=
  0.5 * diode_total_loss sp frequency row + 0.5 * (row.price / 20)

/-- Spec-side system efficiency as claim C6 words it: the switch/rectifier
terms are the individual loss contributions of the selected devices, not the
stored blended scores. -/
def spec_system_efficiency (sp : SystemParameters)
    (coil_loss switch_loss rectifier_loss : ℚ) : ℚ :=
  let transferred_power := sp.vds * sp.i_coil
  ((transferred_power - coil_loss) / (transferred_power + switch_loss + rectifier_loss)) * 100

/-! ## Concrete sample data for witnesses and counterexamples -/

/-- A concrete coil: 1 turn, 1 mm wire, no spacing, 100 mm outer diameter. -/
def sampleCoil : CoilParameters :=
  { turns := 1, wire_diameter := 1, wire_spacing := 0, outer_diameter := 100 }

/-- Concrete system parameters (k = 1, unit counts 1, zero per-unit coil
resistance so the coupling efficiency is exactly 1). -/
def sampleParams : SystemParameters :=
  { coupling_coefficient := 1
    tx_coil := sampleCoil
    rx_coil := sampleCoil
    equivalent_resistance := 1
    mosfet_count := 1
    diode_count := 1
    id_rms := 1
    vds := 2
    ids := 1
    i_coil := 3
    id_eff := 1
    id_mean := 1
    vd := 1
    r1_unit := 0
    r2_unit := 0 }

/-- A MOSFET with zero electrical parameters (total loss 0) and price 40
(blended score `0 * 0.5 + 0.5 * 40 / 20 = 1`). -/
def sampleMosfet : MosfetRow :=
  { name := "M0", price := 40, col4 := 0, col5 := 0, col6 := 0, col7 := 0
    col8 := 0, col9 := 0, col10 := 0 }

/-- A diode with zero electrical parameters (total loss 0) and price 40. -/
def sampleDiode : DiodeRow :=
  { name := "D0", price := 40, col4 := 0, col5 := 0 }

/-- A concrete engine with one-row catalogs. -/
def sampleEngine : Engine :=
  { system_params := sampleParams, mosfet_df := [sampleMosfet], diode_df := [sampleDiode] }

/-- The sample engine with its MOSFET catalog emptied. -/
def emptyMosfetEngine : Engine :=
  { sampleEngine with mosfet_df := [] }

/-- The sample engine with a zero mean diode current. -/
def zeroMeanEngine : Engine :=
  { sampleEngine with system_params := { sampleParams with id_mean := 0 } }

/-! ## Helper lemmas: Python `min` -/

theorem foldl_min_le_init (xs : List ℚ) (x : ℚ) : xs.foldl min x ≤ x := by
  induction xs generalizing x with
  | nil => exact le_refl x
  | cons y ys ih => exact le_trans (ih (min x y)) (min_le_left x y)

theorem foldl_min_mem (xs : List ℚ) (x : ℚ) : xs.foldl min x = x ∨ xs.foldl min x ∈ xs := by
  induction xs generalizing x with
  | nil => exact Or.inl rfl
  | cons y ys ih =>
    rcases ih (min x y) with h | h
    · rcases min_choice x y with hxy | hxy
      · exact Or.inl (h.trans hxy)
      · exact Or.inr (by rw [List.foldl_cons, h, hxy]; exact List.mem_cons_self y ys)
    · exact Or.inr (List.mem_cons_of_mem y h)

theorem foldl_min_le_mem (xs : List ℚ) (x b : ℚ) (hb : b ∈ xs) : xs.foldl min x ≤ b := by
  induction xs generalizing x with
  | nil => cases hb
  | cons y ys ih =>
    rcases List.mem_cons.mp hb with rfl | h
    · exact le_trans (foldl_min_le_init ys (min x b)) (min_le_right x b)
    · exact ih (min x y) h

/-- On a non-empty list, Python `min` returns the least element. -/
theorem pyMin_isLeast (l : List ℚ) (h : l ≠ []) : IsLeast {x : ℚ | x ∈ l} (pyMin l) := by
  cases l with
  | nil => exact absurd rfl h
  | cons x xs =>
    refine ⟨?_, fun b hb => ?_⟩
    · rcases foldl_min_mem xs x with h1 | h1
      · rw [pyMin, h1]; exact List.mem_cons_self x xs
      · rw [pyMin]; exact List.mem_cons_of_mem x h1
    · rcases List.mem_cons.mp hb with rfl | h1
      · exact foldl_min_le_init xs b
      · exact foldl_min_le_mem xs x b h1

/-! ## Helper lemmas: state updates -/

@[simp] theorem infVal_none : infVal none = ⊤ := rfl

@[simp] theorem infVal_some (q : ℚ) : infVal (some q) = (q : WithTop ℚ) := rfl

@[simp] theorem beats_none (m : ℚ) : beats m none = true := rfl

@[simp] theorem beats_some (m b : ℚ) : beats m (some b) = decide (m < b) := rfl

@[simp] theorem update_mosfet_best_diode_loss (l : List ℚ) (s : EvalState) :
    (update_mosfet l s).best_diode_loss = s.best_diode_loss := by
  simp only [update_mosfet]; split <;> rfl

@[simp] theorem update_mosfet_best_diode_idx (l : List ℚ) (s : EvalState) :
    (update_mosfet l s).best_diode_idx = s.best_diode_idx := by
  simp only [update_mosfet]; split <;> rfl

@[simp] theorem update_mosfet_best_coil_loss (l : List ℚ) (s : EvalState) :
    (update_mosfet l s).best_coil_loss = s.best_coil_loss := by
  simp only [update_mosfet]; split <;> rfl

@[simp] theorem update_mosfet_evaluation_count (l : List ℚ) (s : EvalState) :
    (update_mosfet l s).evaluation_count = s.evaluation_count := by
  simp only [update_mosfet]; split <;> rfl

@[simp] theorem update_diode_best_mosfet_loss (l : List ℚ) (s : EvalState) :
    (update_diode l s).best_mosfet_loss = s.best_mosfet_loss := by
  simp only [update_diode]; split <;> rfl

@[simp] theorem update_diode_best_mosfet_idx (l : List ℚ) (s : EvalState) :
    (update_diode l s).best_mosfet_idx = s.best_mosfet_idx := by
  simp only [update_diode]; split <;> rfl

@[simp] theorem update_diode_best_coil_loss (l : List ℚ) (s : EvalState) :
    (update_diode l s).best_coil_loss = s.best_coil_loss := by
  simp only [update_diode]; split <;> rfl

@[simp] theorem update_diode_evaluation_count (l : List ℚ) (s : EvalState) :
    (update_diode l s).evaluation_count = s.evaluation_count := by
  simp only [update_diode]; split <;> rfl

theorem update_mosfet_of_beats (l : List ℚ) (s : EvalState)
    (h : beats (pyMin l) s.best_mosfet_loss = true) :
    (update_mosfet l s).best_mosfet_loss = some (pyMin l) ∧
    (update_mosfet l s).best_mosfet_idx = pyIndex l (pyMin l) := by
  simp [update_mosfet, h]

theorem update_mosfet_of_not_beats (l : List ℚ) (s : EvalState)
    (h : beats (pyMin l) s.best_mosfet_loss = false) :
    (update_mosfet l s).best_mosfet_loss = s.best_mosfet_loss ∧
    (update_mosfet l s).best_mosfet_idx = s.best_mosfet_idx := by
  simp only [update_mosfet, h]; exact ⟨rfl, rfl⟩

theorem update_diode_of_beats (l : List ℚ) (s : EvalState)
    (h : beats (pyMin l) s.best_diode_loss = true) :
    (update_diode l s).best_diode_loss = some (pyMin l) ∧
    (update_diode l s).best_diode_idx = pyIndex l (pyMin l) := by
  simp [update_diode, h]

theorem update_diode_of_not_beats (l : List ℚ) (s : EvalState)
    (h : beats (pyMin l) s.best_diode_loss = false) :
    (update_diode l s).best_diode_loss = s.best_diode_loss ∧
    (update_diode l s).best_diode_idx = s.best_diode_idx := by
  simp only [update_diode, h]; exact ⟨rfl, rfl⟩

theorem update_mosfet_le (l : List ℚ) (s : EvalState) :
    infVal (update_mosfet l s).best_mosfet_loss ≤ infVal s.best_mosfet_loss := by
  simp only [update_mosfet]
  split
  · cases hb : s.best_mosfet_loss with
    | none => simp
    | some b =>
      rename_i h
      rw [hb] at h
      simp only [beats_some, decide_eq_true_eq] at h
      simp [WithTop.coe_le_coe, le_of_lt h]
  · exact le_refl _

theorem update_diode_le (l : List ℚ) (s : EvalState) :
    infVal (update_diode l s).best_diode_loss ≤ infVal s.best_diode_loss := by
  simp only [update_diode]
  split
  · cases hb : s.best_diode_loss with
    | none => simp
    | some b =>
      rename_i h
      rw [hb] at h
      simp only [beats_some, decide_eq_true_eq] at h
      simp [WithTop.coe_le_coe, le_of_lt h]
  · exact le_refl _

/-! ## Helper lemmas: one objective evaluation -/

theorem step_evaluation_count (e : Engine) (s : EvalState) (f : ℚ) :
    (objective_function e s f).1.evaluation_count = s.evaluation_count + 1 := by
  simp [objective_function]

theorem step_best_coil_loss (e : Engine) (s : EvalState) (f : ℚ) :
    (objective_function e s f).1.best_coil_loss = some (coil_loss_at e f) := rfl

theorem step_value (e : Engine) (s : EvalState) (f : ℚ) :
    (objective_function e s f).2 =
      pyMin (mosfet_scores e f) + pyMin (diode_scores e f) + coil_loss_at e f := rfl

theorem step_best_mosfet_loss (e : Engine) (s : EvalState) (f : ℚ) :
    (objective_function e s f).1.best_mosfet_loss =
      (update_mosfet (mosfet_scores e f)
        { s with evaluation_count := s.evaluation_count + 1 }).best_mosfet_loss := by
  simp [objective_function]

theorem step_best_mosfet_idx (e : Engine) (s : EvalState) (f : ℚ) :
    (objective_function e s f).1.best_mosfet_idx =
      (update_mosfet (mosfet_scores e f)
        { s with evaluation_count := s.evaluation_count + 1 }).best_mosfet_idx := by
  simp [objective_function]

theorem step_best_diode_loss (e : Engine) (s : EvalState) (f : ℚ) :
    (objective_function e s f).1.best_diode_loss =
      (update_diode (diode_scores e f)
        (update_mosfet (mosfet_scores e f)
          { s with evaluation_count := s.evaluation_count + 1 })).best_diode_loss := by
  simp [objective_function]

theorem step_best_diode_idx (e : Engine) (s : EvalState) (f : ℚ) :
    (objective_function e s f).1.best_diode_idx =
      (update_diode (diode_scores e f)
        (update_mosfet (mosfet_scores e f)
          { s with evaluation_count := s.evaluation_count + 1 })).best_diode_idx := by
  simp [objective_function]

theorem step_mosfet_le (e : Engine) (s : EvalState) (f : ℚ) :
    infVal (objective_function e s f).1.best_mosfet_loss ≤ infVal s.best_mosfet_loss := by
  rw [step_best_mosfet_loss]
  exact update_mosfet_le (mosfet_scores e f) { s with evaluation_count := s.evaluation_count + 1 }

theorem step_diode_le (e : Engine) (s : EvalState) (f : ℚ) :
    infVal (objective_function e s f).1.best_diode_loss ≤ infVal s.best_diode_loss := by
  rw [step_best_diode_loss]
  exact le_trans
    (update_diode_le (diode_scores e f) _)
    (by rw [update_mosfet_best_diode_loss])

/-! ## Helper lemmas: whole runs -/

@[simp] theorem run_nil (e : Engine) (s : EvalState) : run e s [] = s := rfl

theorem run_cons (e : Engine) (s : EvalState) (f : ℚ) (fs : List ℚ) :
    run e s (f :: fs) = run e (objective_function e s f).1 fs := rfl

theorem run_append_single (e : Engine) (s : EvalState) (fs : List ℚ) (f : ℚ) :
    run e s (fs ++ [f]) = (objective_function e (run e s fs) f).1 := by
  simp [run, List.foldl_append]

theorem states_head? (e : Engine) (s : EvalState) (fs : List ℚ) :
    (states e s fs).head? = some s := by
  cases fs <;> simp [states, List.scanl]

theorem states_chain (e : Engine) (s : EvalState) (fs : List ℚ) :
    List.Chain'
      (fun a b => infVal b.best_mosfet_loss ≤ infVal a.best_mosfet_loss ∧
        infVal b.best_diode_loss ≤ infVal a.best_diode_loss)
      (states e s fs) := by
  induction fs generalizing s with
  | nil => simp [states, List.scanl]
  | cons f fs ih =>
    rw [states, List.scanl_cons, List.singleton_append]
    refine List.chain'_cons'.mpr ⟨fun y hy => ?_, ih (objective_function e s f).1⟩
    have hh : y = (objective_function e s f).1 := by
      have := states_head? e (objective_function e s f).1 fs
      rw [states] at this
      rw [this] at hy
      exact (Option.mem_some_iff.mp hy).symm
    rw [hh]
    exact ⟨step_mosfet_le e s f, step_diode_le e s f⟩

theorem step_mosfet_origin (e : Engine) (s : EvalState) (f : ℚ) :
    (objective_function e s f).1.best_mosfet_loss = s.best_mosfet_loss ∨
    (objective_function e s f).1.best_mosfet_loss = some (pyMin (mosfet_scores e f)) := by
  rw [step_best_mosfet_loss]
  cases hb : beats (pyMin (mosfet_scores e f)) s.best_mosfet_loss with
  | false =>
    exact Or.inl (update_mosfet_of_not_beats _ _ (by simpa using hb)).1
  | true =>
    exact Or.inr (update_mosfet_of_beats _ _ (by simpa using hb)).1

theorem step_diode_origin (e : Engine) (s : EvalState) (f : ℚ) :
    (objective_function e s f).1.best_diode_loss = s.best_diode_loss ∨
    (objective_function e s f).1.best_diode_loss = some (pyMin (diode_scores e f)) := by
  rw [step_best_diode_loss]
  cases hb : beats (pyMin (diode_scores e f)) s.best_diode_loss with
  | false =>
    refine Or.inl ?_
    rw [(update_diode_of_not_beats _ _ (by simpa using hb)).1, update_mosfet_best_diode_loss]
  | true =>
    exact Or.inr (update_diode_of_beats _ _ (by simpa using hb)).1

theorem run_mosfet_origin (e : Engine) (fs : List ℚ) :
    ∀ s : EvalState, (run e s fs).best_mosfet_loss = s.best_mosfet_loss ∨
      ∃ f ∈ fs, (run e s fs).best_mosfet_loss = some (pyMin (mosfet_scores e f)) := by
  induction fs with
  | nil => intro s; exact Or.inl rfl
  | cons f fs ih =>
    intro s
    rw [run_cons]
    rcases ih (objective_function e s f).1 with h | ⟨g, hg, hh⟩
    · rw [h]
      rcases step_mosfet_origin e s f with h1 | h1
      · exact Or.inl h1
      · exact Or.inr ⟨f, List.mem_cons_self f fs, h1⟩
    · exact Or.inr ⟨g, List.mem_cons_of_mem f hg, hh⟩

theorem run_diode_origin (e : Engine) (fs : List ℚ) :
    ∀ s : EvalState, (run e s fs).best_diode_loss = s.best_diode_loss ∨
      ∃ f ∈ fs, (run e s fs).best_diode_loss = some (pyMin (diode_scores e f)) := by
  induction fs with
  | nil => intro s; exact Or.inl rfl
  | cons f fs ih =>
    intro s
    rw [run_cons]
    rcases ih (objective_function e s f).1 with h | ⟨g, hg, hh⟩
    · rw [h]
      rcases step_diode_origin e s f with h1 | h1
      · exact Or.inl h1
      · exact Or.inr ⟨f, List.mem_cons_self f fs, h1⟩
    · exact Or.inr ⟨g, List.mem_cons_of_mem f hg, hh⟩

theorem run_coil_origin (e : Engine) (fs : List ℚ) :
    ∀ s : EvalState, (run e s fs).best_coil_loss = s.best_coil_loss ∨
      ∃ f ∈ fs, (run e s fs).best_coil_loss = some (coil_loss_at e f) := by
  induction fs with
  | nil => intro s; exact Or.inl rfl
  | cons f fs ih =>
    intro s
    rw [run_cons]
    rcases ih (objective_function e s f).1 with h | ⟨g, hg, hh⟩
    · rw [h, step_best_coil_loss]
      exact Or.inr ⟨f, List.mem_cons_self f fs, rfl⟩
    · exact Or.inr ⟨g, List.mem_cons_of_mem f hg, hh⟩

/-! ## Helper lemmas: progress fractions -/

theorem progress_value_le (n : ℕ) : progress_value n ≤ 0.7 :=
  min_le_left _ _

theorem progress_value_mono {n m : ℕ} (h : n ≤ m) : progress_value n ≤ progress_value m := by
  refine min_le_min (le_refl _) ?_
  have hc : (n : ℚ) ≤ (m : ℚ) := by exact_mod_cast h
  nlinarith

theorem progress_value_gt (n : ℕ) (h : 1 ≤ n) : 0.3 < progress_value n := by
  rw [progress_value, lt_min_iff]
  have hc : (1 : ℚ) ≤ (n : ℚ) := by exact_mod_cast h
  constructor
  · norm_num
  · nlinarith

theorem progress_value_ne_one (n : ℕ) : progress_value n ≠ 1 := by
  intro h
  have := progress_value_le n
  rw [h] at this
  norm_num at this

theorem run_progress_formula (e : Engine) (fs : List ℚ) :
    ∀ s : EvalState, run_progress e s fs =
      (List.range fs.length).map (fun k => progress_value (s.evaluation_count + k + 1)) := by
  induction fs with
  | nil => intro s; simp [run_progress]
  | cons f fs ih =>
    intro s
    rw [run_progress, ih (objective_function e s f).1, step_evaluation_count,
      List.length_cons, List.range_succ_eq_map, List.map_cons, List.map_map]
    refine congrArg₂ List.cons (by simp) (List.map_congr_left fun k hk => ?_)
    have : s.evaluation_count + 1 + k + 1 = s.evaluation_count + Nat.succ k + 1 := by omega
    simp [Function.comp, this]

theorem mapped_progress_chain (c n : ℕ) :
    List.Chain' (fun a b => a ≤ b)
      ((List.range n).map (fun k => progress_value (c + k + 1))) := by
  refine List.Pairwise.chain' ?_
  refine List.Pairwise.map _ (fun a b hab => ?_) (List.pairwise_lt_range n)
  exact progress_value_mono (by omega)

/-! ## Helper lemmas: the checked model -/

theorem diode_price_performanceE_ok (sp : SystemParameters) (f : ℚ) (row : DiodeRow)
    (h : sp.id_mean ≠ 0) :
    diode_price_performanceE sp f row = .ok (diode_price_performance sp f row) := by
  simp [diode_price_performanceE, diode_total_lossE, diode_price_performance, diode_total_loss,
    pyDiv, h, bind, Except.bind, pure, Except.pure]

theorem diode_price_performanceE_err (sp : SystemParameters) (f : ℚ) (row : DiodeRow)
    (h : sp.id_mean = 0) :
    diode_price_performanceE sp f row = .error .zeroDivisionError := by
  simp [diode_price_performanceE, diode_total_lossE, pyDiv, h, bind, Except.bind]

theorem mapExcept_diode_ok (sp : SystemParameters) (f : ℚ) (l : List DiodeRow)
    (h : sp.id_mean ≠ 0) :
    mapExcept (diode_price_performanceE sp f) l = .ok (l.map (diode_price_performance sp f)) := by
  induction l with
  | nil => rfl
  | cons r rs ih =>
    rw [mapExcept, diode_price_performanceE_ok sp f r h]
    simp [bind, Except.bind, ih, pure, Except.pure]

theorem mapExcept_diode_err (sp : SystemParameters) (f : ℚ) (r : DiodeRow) (rs : List DiodeRow)
    (h : sp.id_mean = 0) :
    mapExcept (diode_price_performanceE sp f) (r :: rs) = .error .zeroDivisionError := by
  rw [mapExcept, diode_price_performanceE_err sp f r h]
  rfl

theorem calculate_lossE_ok (sp : SystemParameters) (f ltx lrx rtx rrx : ℚ)
    (h : CoilLossCalculator.coil_denominator sp f ltx lrx rtx rrx ≠ 0) :
    calculate_lossE sp f ltx lrx rtx rrx =
      .ok (CoilLossCalculator.calculate_loss sp f ltx lrx rtx rrx) := by
  simp [calculate_lossE, calculate_efficiencyE, pyDiv, h, CoilLossCalculator.calculate_loss,
    CoilLossCalculator.calculate_efficiency, bind, Except.bind, pure, Except.pure]

theorem calculate_lossE_err (sp : SystemParameters) (f ltx lrx rtx rrx : ℚ)
    (h : CoilLossCalculator.coil_denominator sp f ltx lrx rtx rrx = 0) :
    calculate_lossE sp f ltx lrx rtx rrx = .error .zeroDivisionError := by
  simp [calculate_lossE, calculate_efficiencyE, pyDiv, h, bind, Except.bind]

@[simp] theorem pyMinE_nil : pyMinE [] = .error .valueError := rfl

theorem pyMinE_cases (l : List ℚ) :
    pyMinE l = .ok (pyMin l) ∨ (pyMinE l = .error .valueError ∧ l = []) := by
  cases l with
  | nil => exact Or.inr ⟨rfl, rfl⟩
  | cons x xs => exact Or.inl rfl

/-- With a zero mean diode current and a non-empty diode catalog, the checked
objective evaluation raises `ZeroDivisionError` (from `rd = vf / id_mean`). -/
theorem objective_functionE_zero_mean_err (e : Engine) (s : EvalState) (f : ℚ)
    (h0 : e.system_params.id_mean = 0) (hdne : e.diode_df ≠ []) :
    objective_functionE e s f = .error .zeroDivisionError := by
  obtain ⟨r, rs, hrr⟩ := List.exists_cons_of_ne_nil hdne
  simp only [objective_functionE, hrr, mapExcept_diode_err e.system_params f r rs h0]
  rfl

/-- With a zero coupling denominator (and no earlier diode-loop error), the
checked objective evaluation raises `ZeroDivisionError` (from the coil
efficiency division). -/
theorem objective_functionE_den_err (e : Engine) (s : EvalState) (f : ℚ)
    (hmean : e.system_params.id_mean ≠ 0 ∨ e.diode_df = [])
    (hden : CoilLossCalculator.coil_denominator e.system_params f e.tx_inductance
      e.rx_inductance e.tx_resistance e.rx_resistance = 0) :
    objective_functionE e s f = .error .zeroDivisionError := by
  have hdio : mapExcept (diode_price_performanceE e.system_params f) e.diode_df =
      .ok (e.diode_df.map (diode_price_performance e.system_params f)) := by
    rcases hmean with hm0 | hde
    · exact mapExcept_diode_ok _ _ _ hm0
    · rw [hde]; rfl
  simp only [objective_functionE, hdio,
    calculate_lossE_err e.system_params f e.tx_inductance e.rx_inductance
      e.tx_resistance e.rx_resistance hden]
  rfl

/-- With an empty catalog (and no earlier zero division in the same
evaluation), the checked objective evaluation raises `ValueError` from
`min()` of an empty score list. -/
theorem objective_functionE_empty_err (e : Engine) (s : EvalState) (f : ℚ)
    (hcat : e.mosfet_df = [] ∨ e.diode_df = [])
    (hmean : e.system_params.id_mean ≠ 0 ∨ e.diode_df = [])
    (hden : CoilLossCalculator.coil_denominator e.system_params f e.tx_inductance
      e.rx_inductance e.tx_resistance e.rx_resistance ≠ 0) :
    objective_functionE e s f = .error .valueError := by
  have hdio : mapExcept (diode_price_performanceE e.system_params f) e.diode_df =
      .ok (e.diode_df.map (diode_price_performance e.system_params f)) := by
    rcases hmean with hm0 | hde
    · exact mapExcept_diode_ok _ _ _ hm0
    · rw [hde]; rfl
  have hcoil := calculate_lossE_ok e.system_params f e.tx_inductance e.rx_inductance
    e.tx_resistance e.rx_resistance hden
  rcases hcat with hme | hde
  · have hms : mosfet_scores e f = [] := by simp [mosfet_scores, hme]
    simp only [objective_functionE, hdio, hcoil, hms, pyMinE_nil, bind, Except.bind]
  · have hds : e.diode_df.map (diode_price_performance e.system_params f) = [] := by
      simp [hde]
    rcases pyMinE_cases (mosfet_scores e f) with hok | ⟨herr, _⟩
    · simp only [objective_functionE, hdio, hcoil, hds, hok, pyMinE_nil, bind, Except.bind]
    · simp only [objective_functionE, hdio, hcoil, hds, herr, bind, Except.bind]

/-- When every division succeeds and both catalogs are non-empty, the checked
objective evaluation agrees with the total model. -/
theorem objective_functionE_ok (e : Engine) (s : EvalState) (f : ℚ)
    (hmean : e.system_params.id_mean ≠ 0 ∨ e.diode_df = [])
    (hden : CoilLossCalculator.coil_denominator e.system_params f e.tx_inductance
      e.rx_inductance e.tx_resistance e.rx_resistance ≠ 0)
    (hm : e.mosfet_df ≠ []) (hd : e.diode_df ≠ []) :
    objective_functionE e s f = .ok (objective_function e s f) := by
  have hm0 : e.system_params.id_mean ≠ 0 := by
    rcases hmean with h | h
    · exact h
    · exact absurd h hd
  have hdio : mapExcept (diode_price_performanceE e.system_params f) e.diode_df =
      .ok (e.diode_df.map (diode_price_performance e.system_params f)) :=
    mapExcept_diode_ok _ _ _ hm0
  have hcoil := calculate_lossE_ok e.system_params f e.tx_inductance e.rx_inductance
    e.tx_resistance e.rx_resistance hden
  have hms : mosfet_scores e f ≠ [] := by
    simpa [mosfet_scores, List.map_eq_nil_iff] using hm
  have hds : diode_scores e f ≠ [] := by
    simpa [diode_scores, List.map_eq_nil_iff] using hd
  rcases pyMinE_cases (mosfet_scores e f) with hokm | ⟨_, hnil⟩
  · rcases pyMinE_cases (diode_scores e f) with hokd | ⟨_, hnil⟩
    · simp only [objective_functionE, hdio, hcoil, hokm]
      simp only [diode_scores] at hokd
      simp only [hokd, bind, Except.bind, pure, Except.pure, objective_function,
        mosfet_scores, diode_scores, coil_loss_at]
    · exact absurd hnil hds
  · exact absurd hnil hms

/-! ## Helper lemmas: blended scores -/

theorem mosfet_score_eq_spec (sp : SystemParameters) (f : ℚ) (row : MosfetRow) :
    mosfet_price_performance sp f row = spec_switch_score sp f row := by
  rw [mosfet_price_performance, spec_switch_score]; ring

theorem diode_score_eq_spec (sp : SystemParameters) (f : ℚ) (row : DiodeRow) :
    diode_price_performance sp f row = spec_rectifier_score sp f row := by
  rw [diode_price_performance, spec_rectifier_score]; ring

/-! ## Helper lemmas: `get_results` and concrete sample evaluations -/

theorem get_results_eq (e : Engine) (s : EvalState) (m d c : ℚ)
    (hm : s.best_mosfet_loss = some m) (hd : s.best_diode_loss = some d)
    (hc : s.best_coil_loss = some c) :
    get_results e s = some
      { best_frequency := 0
        best_loss := 0
        best_mosfet_name := mosfetName e.mosfet_df s.best_mosfet_idx
        best_diode_name := diodeName e.diode_df s.best_diode_idx
        mosfet_loss := m
        diode_loss := d
        coil_loss := c
        tx_inductance := e.tx_inductance
        rx_inductance := e.rx_inductance
        tx_resistance := e.tx_resistance
        rx_resistance := e.rx_resistance
        system_efficiency := ((e.system_params.vds * e.system_params.i_coil - c) /
          (e.system_params.vds * e.system_params.i_coil + m + d)) * 100 } := by
  simp only [get_results, hm, hd, hc]

theorem sample_run_state :
    (run sampleEngine initState [1]).best_mosfet_loss = some 1 ∧
    (run sampleEngine initState [1]).best_diode_loss = some 1 ∧
    (run sampleEngine initState [1]).best_coil_loss = some 0 := by
  norm_num [run, objective_function, update_mosfet, update_diode, mosfet_scores, diode_scores,
    mosfet_price_performance, mosfet_total_loss, diode_price_performance, diode_total_loss,
    sampleEngine, sampleParams, sampleMosfet, sampleDiode, sampleCoil, pyMin, beats, pyIndex,
    initState, coil_loss_at, CoilLossCalculator.calculate_loss,
    CoilLossCalculator.calculate_efficiency, CoilLossCalculator.coil_numerator,
    CoilLossCalculator.coil_denominator, Engine.tx_inductance, Engine.rx_inductance,
    Engine.tx_resistance, Engine.rx_resistance, ComponentCalculator.calculate_coil_inductance,
    ComponentCalculator.calculate_coil_resistance, CoilParameters.wire_length,
    CoilParameters.inner_diameter, math_pi, MOSFETLossCalculator.calculate_conduction_loss,
    MOSFETLossCalculator.calculate_switching_loss, MOSFETLossCalculator.calculate_gate_loss,
    MOSFETLossCalculator.calculate_reverse_recovery_loss,
    DiodeLossCalculator.calculate_conduction_loss, DiodeLossCalculator.calculate_switching_loss,
    DiodeLossCalculator.calculate_reverse_recovery_loss]

theorem sample_coil_loss : coil_loss_at sampleEngine 1 = 0 := by
  norm_num [coil_loss_at, CoilLossCalculator.calculate_loss,
    CoilLossCalculator.calculate_efficiency, CoilLossCalculator.coil_numerator,
    CoilLossCalculator.coil_denominator, Engine.tx_inductance, Engine.rx_inductance,
    Engine.tx_resistance, Engine.rx_resistance, ComponentCalculator.calculate_coil_inductance,
    ComponentCalculator.calculate_coil_resistance, CoilParameters.wire_length,
    CoilParameters.inner_diameter, math_pi, sampleEngine, sampleParams, sampleCoil]

theorem sample_mosfet_loss : mosfet_total_loss sampleEngine.system_params 1 sampleMosfet = 0 := by
  norm_num [mosfet_total_loss, sampleEngine, sampleParams, sampleMosfet,
    MOSFETLossCalculator.calculate_conduction_loss, MOSFETLossCalculator.calculate_switching_loss,
    MOSFETLossCalculator.calculate_gate_loss, MOSFETLossCalculator.calculate_reverse_recovery_loss]

theorem sample_diode_loss : diode_total_loss sampleEngine.system_params 1 sampleDiode = 0 := by
  norm_num [diode_total_loss, sampleEngine, sampleParams, sampleDiode,
    DiodeLossCalculator.calculate_conduction_loss, DiodeLossCalculator.calculate_switching_loss,
    DiodeLossCalculator.calculate_reverse_recovery_loss]

/-! ## The claims -/

/-- C1: for every non-empty switch catalog, non-empty rectifier catalog and
frequency, the value the objective function returns to the optimizer equals
the minimum over switch entries of `0.5 × total switch loss + 0.5 × price ÷ 20`
plus the minimum over rectifier entries of the same blend plus the coil loss
at that frequency, each term computed by the corresponding loss model.  The
two `IsLeast` conjuncts characterise the two `pyMin` terms as exactly those
minima over the catalogs. -/
theorem C1_objective_value_decomposition (e : Engine) (s : EvalState) (f : ℚ)
    (hm : e.mosfet_df ≠ []) (hd : e.diode_df ≠ []) :
    IsLeast {x : ℚ | ∃ row ∈ e.mosfet_df, x = spec_switch_score e.system_params f row}
      (pyMin (mosfet_scores e f)) ∧
    IsLeast {x : ℚ | ∃ row ∈ e.diode_df, x = spec_rectifier_score e.system_params f row}
      (pyMin (diode_scores e f)) ∧
    (objective_function e s f).2 =
      pyMin (mosfet_scores e f) + pyMin (diode_scores e f) +
        CoilLossCalculator.calculate_loss e.system_params f e.tx_inductance e.rx_inductance
          e.tx_resistance e.rx_resistance := by
  have hms : mosfet_scores e f ≠ [] := by
    simpa [mosfet_scores, List.map_eq_nil_iff] using hm
  have hds : diode_scores e f ≠ [] := by
    simpa [diode_scores, List.map_eq_nil_iff] using hd
  have hsetm : {x : ℚ | ∃ row ∈ e.mosfet_df, x = spec_switch_score e.system_params f row}
      = {x : ℚ | x ∈ mosfet_scores e f} := by
    ext x
    simp only [Set.mem_setOf_eq, mosfet_scores, List.mem_map]
    constructor
    · rintro ⟨row, hrow, rfl⟩
      exact ⟨row, hrow, mosfet_score_eq_spec e.system_params f row⟩
    · rintro ⟨row, hrow, rfl⟩
      exact ⟨row, hrow, mosfet_score_eq_spec e.system_params f row⟩
  have hsetd : {x : ℚ | ∃ row ∈ e.diode_df, x = spec_rectifier_score e.system_params f row}
      = {x : ℚ | x ∈ diode_scores e f} := by
    ext x
    simp only [Set.mem_setOf_eq, diode_scores, List.mem_map]
    constructor
    · rintro ⟨row, hrow, rfl⟩
      exact ⟨row, hrow, diode_score_eq_spec e.system_params f row⟩
    · rintro ⟨row, hrow, rfl⟩
      exact ⟨row, hrow, diode_score_eq_spec e.system_params f row⟩
  refine ⟨?_, ?_, step_value e s f⟩
  · rw [hsetm]; exact pyMin_isLeast _ hms
  · rw [hsetd]; exact pyMin_isLeast _ hds

/-- Witness for C1 at a concrete engine, state and frequency. -/
theorem C1_witness_objective_value :
    sampleEngine.mosfet_df ≠ [] ∧ sampleEngine.diode_df ≠ [] ∧
    (objective_function sampleEngine initState 1).2 =
      pyMin (mosfet_scores sampleEngine 1) + pyMin (diode_scores sampleEngine 1) +
        CoilLossCalculator.calculate_loss sampleEngine.system_params 1
          sampleEngine.tx_inductance sampleEngine.rx_inductance
          sampleEngine.tx_resistance sampleEngine.rx_resistance := by
  have h1 : sampleEngine.mosfet_df ≠ [] := by simp [sampleEngine]
  have h2 : sampleEngine.diode_df ≠ [] := by simp [sampleEngine]
  exact ⟨h1, h2, (C1_objective_value_decomposition sampleEngine initState 1 h1 h2).2.2⟩

/-- C2: across the ordered sequence of objective-function calls of one run,
the stored best-so-far switch and rectifier scores are each monotonically
non-increasing (the `Chain'` conjunct, over the successive states of the
run), and each is overwritten exactly when the new minimum strictly beats
the stored value (strict `<`, so on a tie the earlier recorded score and
index are kept — the `= false` conjuncts). -/
theorem C2_best_so_far_monotone (e : Engine) (s : EvalState) (f : ℚ) (fs : List ℚ) :
    List.Chain'
      (fun a b => infVal b.best_mosfet_loss ≤ infVal a.best_mosfet_loss ∧
        infVal b.best_diode_loss ≤ infVal a.best_diode_loss)
      (states e s fs) ∧
    (beats (pyMin (mosfet_scores e f)) s.best_mosfet_loss = true →
      (objective_function e s f).1.best_mosfet_loss = some (pyMin (mosfet_scores e f)) ∧
      (objective_function e s f).1.best_mosfet_idx =
        pyIndex (mosfet_scores e f) (pyMin (mosfet_scores e f))) ∧
    (beats (pyMin (mosfet_scores e f)) s.best_mosfet_loss = false →
      (objective_function e s f).1.best_mosfet_loss = s.best_mosfet_loss ∧
      (objective_function e s f).1.best_mosfet_idx = s.best_mosfet_idx) ∧
    (beats (pyMin (diode_scores e f)) s.best_diode_loss = true →
      (objective_function e s f).1.best_diode_loss = some (pyMin (diode_scores e f)) ∧
      (objective_function e s f).1.best_diode_idx =
        pyIndex (diode_scores e f) (pyMin (diode_scores e f))) ∧
    (beats (pyMin (diode_scores e f)) s.best_diode_loss = false →
      (objective_function e s f).1.best_diode_loss = s.best_diode_loss ∧
      (objective_function e s f).1.best_diode_idx = s.best_diode_idx) := by
  refine ⟨states_chain e s fs, ?_, ?_, ?_, ?_⟩
  · intro h
    rw [step_best_mosfet_loss, step_best_mosfet_idx]
    exact update_mosfet_of_beats _ _ h
  · intro h
    rw [step_best_mosfet_loss, step_best_mosfet_idx]
    exact update_mosfet_of_not_beats _ _ h
  · intro h
    have hb : beats (pyMin (diode_scores e f))
        ((update_mosfet (mosfet_scores e f)
          { s with evaluation_count := s.evaluation_count + 1 }).best_diode_loss) = true := by
      rw [update_mosfet_best_diode_loss]; exact h
    rw [step_best_diode_loss, step_best_diode_idx]
    exact update_diode_of_beats _ _ hb
  · intro h
    have hb : beats (pyMin (diode_scores e f))
        ((update_mosfet (mosfet_scores e f)
          { s with evaluation_count := s.evaluation_count + 1 }).best_diode_loss) = false := by
      rw [update_mosfet_best_diode_loss]; exact h
    rw [step_best_diode_loss, step_best_diode_idx]
    have h1 := update_diode_of_not_beats (diode_scores e f)
      (update_mosfet (mosfet_scores e f)
        { s with evaluation_count := s.evaluation_count + 1 }) hb
    rw [h1.1, h1.2, update_mosfet_best_diode_loss, update_mosfet_best_diode_idx]
    exact ⟨rfl, rfl⟩

/-- Witness for C2 at a concrete engine, the initial state and one call:
the initial best is `float('inf')`, so the first minimum beats it and is
recorded together with its index. -/
theorem C2_witness_best_so_far :
    beats (pyMin (mosfet_scores sampleEngine 1)) initState.best_mosfet_loss = true ∧
    (objective_function sampleEngine initState 1).1.best_mosfet_loss =
      some (pyMin (mosfet_scores sampleEngine 1)) ∧
    (objective_function sampleEngine initState 1).1.best_mosfet_idx =
      pyIndex (mosfet_scores sampleEngine 1) (pyMin (mosfet_scores sampleEngine 1)) := by
  have hb : beats (pyMin (mosfet_scores sampleEngine 1)) initState.best_mosfet_loss = true := rfl
  have h := (C2_best_so_far_monotone sampleEngine initState 1 []).2.1 hb
  exact ⟨hb, h.1, h.2⟩

/-- C4 counterexample: with an empty MOSFET catalog the run does not stop
before the optimizer with a configuration error; the failure is a
`ValueError` raised inside evaluation #1 (Python `min()` of the empty score
list), refuting the claim at this concrete input. -/
theorem C4_counterexample_empty_catalog :
    optimizeE emptyMosfetEngine initState [5] = RunOutcome.evalError 1 PyErr.valueError ∧
    optimizeE emptyMosfetEngine initState [5] ≠ RunOutcome.preIterationConfigurationError := by
  have h : optimizeE emptyMosfetEngine initState [5] = RunOutcome.evalError 1 PyErr.valueError := by
    norm_num [optimizeE, objective_functionE, mapExcept, diode_price_performanceE,
      diode_total_lossE, calculate_lossE, calculate_efficiencyE, pyDiv, pyMinE, mosfet_scores,
      emptyMosfetEngine, sampleEngine, sampleParams, sampleDiode, sampleCoil,
      Engine.tx_inductance, Engine.rx_inductance, Engine.tx_resistance, Engine.rx_resistance,
      ComponentCalculator.calculate_coil_inductance, ComponentCalculator.calculate_coil_resistance,
      CoilLossCalculator.coil_numerator, CoilLossCalculator.coil_denominator,
      CoilParameters.wire_length, CoilParameters.inner_diameter, math_pi,
      DiodeLossCalculator.calculate_conduction_loss, DiodeLossCalculator.calculate_switching_loss,
      DiodeLossCalculator.calculate_reverse_recovery_loss, Except.bind, bind, pure, Except.pure,
      initState]
  exact ⟨h, by rw [h]; simp⟩

/-- C4 (amended): an empty catalog is not detected before the optimizer
starts; when either catalog is empty the failure surfaces inside the first
objective evaluation, as a `ValueError` from `min()` of an empty score list
(provided that same evaluation does not hit a zero division first), and it
is this evaluation error — not a pre-iteration configuration error — that
aborts the run. -/
theorem C4_empty_catalog_fails_in_first_evaluation (e : Engine) (s : EvalState) (f : ℚ)
    (fs : List ℚ)
    (hcat : e.mosfet_df = [] ∨ e.diode_df = [])
    (hmean : e.system_params.id_mean ≠ 0 ∨ e.diode_df = [])
    (hden : CoilLossCalculator.coil_denominator e.system_params f e.tx_inductance
      e.rx_inductance e.tx_resistance e.rx_resistance ≠ 0) :
    objective_functionE e s f = .error .valueError ∧
    optimizeE e s (f :: fs) = .evalError (s.evaluation_count + 1) .valueError ∧
    optimizeE e s (f :: fs) ≠ .preIterationConfigurationError := by
  have hobj := objective_functionE_empty_err e s f hcat hmean hden
  have hrun : optimizeE e s (f :: fs) = .evalError (s.evaluation_count + 1) .valueError := by
    simp [optimizeE, hobj]
  exact ⟨hobj, hrun, by rw [hrun]; simp⟩

/-- Witness for C4 at a concrete empty-catalog engine. -/
theorem C4_witness_empty_catalog :
    objective_functionE emptyMosfetEngine initState 5 = .error .valueError ∧
    optimizeE emptyMosfetEngine initState (5 :: []) =
      .evalError (initState.evaluation_count + 1) .valueError := by
  have h := C4_empty_catalog_fails_in_first_evaluation emptyMosfetEngine initState 5 []
    (Or.inl rfl)
    (Or.inl (by norm_num [emptyMosfetEngine, sampleEngine, sampleParams]))
    (by norm_num [emptyMosfetEngine, sampleEngine, sampleParams, sampleCoil,
      Engine.tx_inductance, Engine.rx_inductance, Engine.tx_resistance, Engine.rx_resistance,
      ComponentCalculator.calculate_coil_inductance, ComponentCalculator.calculate_coil_resistance,
      CoilLossCalculator.coil_denominator, CoilParameters.wire_length,
      CoilParameters.inner_diameter, math_pi])
  exact ⟨h.1, h.2.1⟩

/-- C7: a zero mean current in the rectifier model, and a zero denominator in
the coupling-efficiency computation, are raised as `ZeroDivisionError` and
propagate to the optimizer driver, aborting the run; and whenever the
objective evaluation returns a value at all, neither condition held, so no
such input ever contributes a value to the objective or to the best-so-far
comparisons. -/
theorem C7_zero_division_raises (e : Engine) (s : EvalState) (f : ℚ) (fs : List ℚ) :
    (e.system_params.id_mean = 0 → e.diode_df ≠ [] →
      objective_functionE e s f = .error .zeroDivisionError ∧
      optimizeE e s (f :: fs) = .evalError (s.evaluation_count + 1) .zeroDivisionError) ∧
    ((e.system_params.id_mean ≠ 0 ∨ e.diode_df = []) →
      CoilLossCalculator.coil_denominator e.system_params f e.tx_inductance e.rx_inductance
        e.tx_resistance e.rx_resistance = 0 →
      objective_functionE e s f = .error .zeroDivisionError ∧
      optimizeE e s (f :: fs) = .evalError (s.evaluation_count + 1) .zeroDivisionError) ∧
    (∀ p : EvalState × ℚ, objective_functionE e s f = .ok p →
      (e.diode_df ≠ [] → e.system_params.id_mean ≠ 0) ∧
      CoilLossCalculator.coil_denominator e.system_params f e.tx_inductance e.rx_inductance
        e.tx_resistance e.rx_resistance ≠ 0) := by
  refine ⟨?_, ?_, ?_⟩
  · intro h0 hdne
    have hobj := objective_functionE_zero_mean_err e s f h0 hdne
    exact ⟨hobj, by simp [optimizeE, hobj]⟩
  · intro hmean hden
    have hobj := objective_functionE_den_err e s f hmean hden
    exact ⟨hobj, by simp [optimizeE, hobj]⟩
  · intro p hp
    constructor
    · intro hdne h0
      rw [objective_functionE_zero_mean_err e s f h0 hdne] at hp
      exact Except.noConfusion hp
    · intro hden0
      by_cases hid : e.system_params.id_mean = 0
      · by_cases hdf : e.diode_df = []
        · rw [objective_functionE_den_err e s f (Or.inr hdf) hden0] at hp
          exact Except.noConfusion hp
        · rw [objective_functionE_zero_mean_err e s f hid hdf] at hp
          exact Except.noConfusion hp
      · rw [objective_functionE_den_err e s f (Or.inl hid) hden0] at hp
        exact Except.noConfusion hp

/-- Witness for C7 at a concrete engine with a zero mean diode current. -/
theorem C7_witness_zero_division :
    objective_functionE zeroMeanEngine initState 1 = .error .zeroDivisionError ∧
    optimizeE zeroMeanEngine initState (1 :: []) =
      .evalError (initState.evaluation_count + 1) .zeroDivisionError := by
  refine (C7_zero_division_raises zeroMeanEngine initState 1 []).1 ?_ ?_
  · rfl
  · simp [zeroMeanEngine, sampleEngine]

/-- C5 counterexample: over the schedule `[1]` the optimizer's best point is
frequency `1` with objective value `2` (the last conjunct), yet the record
built by `get_results` carries `best_frequency = 0` and `best_loss = 0` —
the aggregation operation does not populate these fields from the best
point. -/
theorem C5_counterexample_placeholder_fields :
    (get_results sampleEngine (run sampleEngine initState [1])).map
      OptimizationResults.best_frequency = some 0 ∧
    (get_results sampleEngine (run sampleEngine initState [1])).map
      OptimizationResults.best_frequency ≠ some 1 ∧
    (get_results sampleEngine (run sampleEngine initState [1])).map
      OptimizationResults.best_loss = some 0 ∧
    (get_results sampleEngine (run sampleEngine initState [1])).map
      OptimizationResults.best_loss ≠ some 2 ∧
    (objective_function sampleEngine initState 1).2 = 2 := by
  have hs := sample_run_state
  rw [get_results_eq sampleEngine _ 1 1 0 hs.1 hs.2.1 hs.2.2]
  refine ⟨rfl, by norm_num, rfl, by norm_num, ?_⟩
  rw [step_value, sample_coil_loss]
  norm_num [mosfet_scores, diode_scores, pyMin, mosfet_price_performance, diode_price_performance,
    mosfet_total_loss, diode_total_loss, sampleEngine, sampleParams, sampleMosfet, sampleDiode,
    MOSFETLossCalculator.calculate_conduction_loss, MOSFETLossCalculator.calculate_switching_loss,
    MOSFETLossCalculator.calculate_gate_loss, MOSFETLossCalculator.calculate_reverse_recovery_loss,
    DiodeLossCalculator.calculate_conduction_loss, DiodeLossCalculator.calculate_switching_loss,
    DiodeLossCalculator.calculate_reverse_recovery_loss]

/-- C5 (amended): `get_results` fills `best_frequency` and `best_loss` with
`0.0` placeholders — it does not receive the optimizer's best point at all —
while carrying the best-so-far switch/rectifier scores, names and the
last-recorded coil loss from the evaluation state; the two fields are
overwritten by the caller (`main_app`) with the best point the optimizer
returned. -/
theorem C5_get_results_placeholders_and_caller (e : Engine) (s : EvalState)
    (m d c best_frequency best_loss : ℚ)
    (hm : s.best_mosfet_loss = some m) (hd : s.best_diode_loss = some d)
    (hc : s.best_coil_loss = some c) :
    (get_results e s).map OptimizationResults.best_frequency = some 0 ∧
    (get_results e s).map OptimizationResults.best_loss = some 0 ∧
    (get_results e s).map OptimizationResults.mosfet_loss = some m ∧
    (get_results e s).map OptimizationResults.diode_loss = some d ∧
    (get_results e s).map OptimizationResults.coil_loss = some c ∧
    (get_results e s).map OptimizationResults.best_mosfet_name =
      some (mosfetName e.mosfet_df s.best_mosfet_idx) ∧
    (get_results e s).map OptimizationResults.best_diode_name =
      some (diodeName e.diode_df s.best_diode_idx) ∧
    (caller_results e s best_frequency best_loss).map OptimizationResults.best_frequency =
      some best_frequency ∧
    (caller_results e s best_frequency best_loss).map OptimizationResults.best_loss =
      some best_loss := by
  rw [caller_results, get_results_eq e s m d c hm hd hc]
  exact ⟨rfl, rfl, rfl, rfl, rfl, rfl, rfl, rfl, rfl⟩

/-- Witness for C5 at a concrete post-run state and best point `(1, 2)`. -/
theorem C5_witness_placeholder_fields :
    (get_results sampleEngine (run sampleEngine initState [1])).map
      OptimizationResults.best_frequency = some 0 ∧
    (caller_results sampleEngine (run sampleEngine initState [1]) 1 2).map
      OptimizationResults.best_frequency = some 1 ∧
    (caller_results sampleEngine (run sampleEngine initState [1]) 1 2).map
      OptimizationResults.best_loss = some 2 := by
  have hs := sample_run_state
  have h := C5_get_results_placeholders_and_caller sampleEngine (run sampleEngine initState [1])
    1 1 0 1 2 hs.1 hs.2.1 hs.2.2
  exact ⟨h.1, h.2.2.2.2.2.2.2.1, h.2.2.2.2.2.2.2.2⟩

/-- C6 counterexample: after the run over `[1]` the selected devices have
individual total losses `0` and `0` (see `sample_mosfet_loss`,
`sample_diode_loss`), and the coil loss is `0`, so the efficiency formula of
the claim — with the individual loss contributions — yields `100`; but the
reported efficiency is `75`, because the code divides by the stored blended
price/performance scores (`1` and `1`), not by the losses. -/
theorem C6_counterexample_blended_scores :
    (get_results sampleEngine (run sampleEngine initState [1])).map
      OptimizationResults.system_efficiency = some 75 ∧
    spec_system_efficiency sampleEngine.system_params (coil_loss_at sampleEngine 1)
      (mosfet_total_loss sampleEngine.system_params 1 sampleMosfet)
      (diode_total_loss sampleEngine.system_params 1 sampleDiode) = 100 ∧
    (75 : ℚ) ≠ 100 := by
  have hs := sample_run_state
  rw [get_results_eq sampleEngine _ 1 1 0 hs.1 hs.2.1 hs.2.2]
  refine ⟨?_, ?_, by norm_num⟩
  · norm_num [sampleEngine, sampleParams]
  · rw [sample_coil_loss, sample_mosfet_loss, sample_diode_loss]
    norm_num [spec_system_efficiency, sampleEngine, sampleParams]

/-- C6 (amended): the reported system efficiency is
`(transferred power − coil loss) ÷ (transferred power + m + d) × 100` where
`m` and `d` are the stored best-so-far *blended price/performance scores*
(each the minimum over a catalog of `0.5 × loss + 0.5 × price ÷ 20` at some
evaluated frequency), not the individual loss contributions of the selected
devices; the coil term is a coil loss recorded at some evaluated
frequency. -/
theorem C6_efficiency_uses_blended_scores (e : Engine) (fs : List ℚ) (m d c : ℚ)
    (hm : (run e initState fs).best_mosfet_loss = some m)
    (hd : (run e initState fs).best_diode_loss = some d)
    (hc : (run e initState fs).best_coil_loss = some c) :
    (get_results e (run e initState fs)).map OptimizationResults.system_efficiency =
      some (((e.system_params.vds * e.system_params.i_coil - c) /
        (e.system_params.vds * e.system_params.i_coil + m + d)) * 100) ∧
    (∃ f ∈ fs, m = pyMin (mosfet_scores e f)) ∧
    (∃ f ∈ fs, d = pyMin (diode_scores e f)) ∧
    (∃ f ∈ fs, c = coil_loss_at e f) := by
  refine ⟨?_, ?_, ?_, ?_⟩
  · rw [get_results_eq e _ m d c hm hd hc]
    rfl
  · rcases run_mosfet_origin e fs initState with h | ⟨f, hf, hh⟩
    · rw [h] at hm
      simp [initState] at hm
    · rw [hh] at hm
      exact ⟨f, hf, (Option.some.inj hm).symm⟩
  · rcases run_diode_origin e fs initState with h | ⟨f, hf, hh⟩
    · rw [h] at hd
      simp [initState] at hd
    · rw [hh] at hd
      exact ⟨f, hf, (Option.some.inj hd).symm⟩
  · rcases run_coil_origin e fs initState with h | ⟨f, hf, hh⟩
    · rw [h] at hc
      simp [initState] at hc
    · rw [hh] at hc
      exact ⟨f, hf, (Option.some.inj hc).symm⟩

/-- Witness for C6 at the concrete run over `[1]`. -/
theorem C6_witness_blended_scores :
    (get_results sampleEngine (run sampleEngine initState [1])).map
      OptimizationResults.system_efficiency =
      some (((sampleEngine.system_params.vds * sampleEngine.system_params.i_coil - 0) /
        (sampleEngine.system_params.vds * sampleEngine.system_params.i_coil + 1 + 1)) * 100) ∧
    ∃ f ∈ [(1 : ℚ)], (1 : ℚ) = pyMin (mosfet_scores sampleEngine f) := by
  have hs := sample_run_state
  have h := C6_efficiency_uses_blended_scores sampleEngine [1] 1 1 0 hs.1 hs.2.1 hs.2.2
  exact ⟨h.1, h.2.1⟩

/-- C3: after every objective-function call the stored best-so-far coil loss
equals the coil loss computed at the frequency of that call — it is
overwritten unconditionally, whatever the previous state held, so after a
run it reflects the most recently evaluated frequency. -/
theorem C3_coil_loss_overwritten (e : Engine) (s : EvalState) (f : ℚ) (fs : List ℚ) :
    (objective_function e s f).1.best_coil_loss = some (coil_loss_at e f) ∧
    (run e s (fs ++ [f])).best_coil_loss = some (coil_loss_at e f) := by
  refine ⟨step_best_coil_loss e s f, ?_⟩
  rw [run_append_single]
  exact step_best_coil_loss e (run e s fs) f

/-- C8: for physically valid inputs (coupling coefficient in `(0, 1]`,
strictly positive frequency, load resistance, coil resistances and
inductances), the coupling efficiency lies in the closed interval
`[0, 1]`. -/
theorem C8_efficiency_in_unit_interval (sp : SystemParameters) (f ltx lrx rtx rrx : ℚ)
    (hk0 : 0 < sp.coupling_coefficient) (_hk1 : sp.coupling_coefficient ≤ 1)
    (hf : 0 < f) (hreq : 0 < sp.equivalent_resistance)
    (hltx : 0 < ltx) (hlrx : 0 < lrx) (hrtx : 0 < rtx) (hrrx : 0 < rrx) :
    0 ≤ CoilLossCalculator.calculate_efficiency sp f ltx lrx rtx rrx ∧
    CoilLossCalculator.calculate_efficiency sp f ltx lrx rtx rrx ≤ 1 := by
  have hpi : (0 : ℚ) < math_pi := by norm_num [math_pi]
  have hwpos : 0 < 2 * math_pi * f * sp.coupling_coefficient :=
    mul_pos (mul_pos (mul_pos two_pos hpi) hf) hk0
  have hw : 0 < (2 * math_pi * f * sp.coupling_coefficient) ^ 2 := pow_pos hwpos 2
  have hN : 0 ≤ CoilLossCalculator.coil_numerator sp f ltx lrx := by
    rw [CoilLossCalculator.coil_numerator]
    exact (mul_pos (mul_pos (mul_pos hreq hltx) hlrx) hw).le
  have hD : 0 < CoilLossCalculator.coil_denominator sp f ltx lrx rtx rrx := by
    rw [CoilLossCalculator.coil_denominator]
    have h1 : 0 < rrx + sp.equivalent_resistance := add_pos hrrx hreq
    have h2 : 0 < rtx * (rrx + sp.equivalent_resistance) := mul_pos hrtx h1
    have h3 : 0 < (2 * math_pi * f * sp.coupling_coefficient) ^ 2 * ltx * lrx :=
      mul_pos (mul_pos hw hltx) hlrx
    exact mul_pos h1 (by linarith)
  constructor
  · exact div_nonneg hN hD.le
  · rw [CoilLossCalculator.calculate_efficiency, div_le_one hD]
    rw [CoilLossCalculator.coil_numerator, CoilLossCalculator.coil_denominator]
    nlinarith [mul_pos hrrx (mul_pos (mul_pos hw hltx) hlrx),
      mul_pos hrtx (mul_pos (add_pos hrrx hreq) (add_pos hrrx hreq))]

/-- Witness for C8 at concrete valid parameters. -/
theorem C8_witness_efficiency_bounds :
    0 ≤ CoilLossCalculator.calculate_efficiency sampleParams 1 1 1 1 1 ∧
    CoilLossCalculator.calculate_efficiency sampleParams 1 1 1 1 1 ≤ 1 :=
  C8_efficiency_in_unit_interval sampleParams 1 1 1 1 1
    (by norm_num [sampleParams]) (by norm_num [sampleParams]) (by norm_num)
    (by norm_num [sampleParams]) (by norm_num) (by norm_num) (by norm_num) (by norm_num)

/-- C9 counterexample: with wire diameter 1, spacing 1 and outer diameter
100 held fixed, no single constant `k` satisfies
`wire_length(turns) = k × turns` for all positive turn counts with positive
inner diameter — turns 1 and 2 (inner diameters 96 and 92) already
disagree. -/
theorem C9_counterexample_not_proportional :
    ¬ ∃ k : ℚ, ∀ t : ℤ, 0 < t →
        0 < (CoilParameters.mk t 1 1 100).inner_diameter →
        (CoilParameters.mk t 1 1 100).wire_length = k * (t : ℚ) := by
  rintro ⟨k, hk⟩
  have h1 := hk 1 (by norm_num) (by norm_num [CoilParameters.inner_diameter])
  have h2 := hk 2 (by norm_num) (by norm_num [CoilParameters.inner_diameter])
  rw [CoilParameters.wire_length, CoilParameters.inner_diameter] at h1 h2
  norm_num [math_pi] at h1 h2
  rw [← h1] at h2
  norm_num at h2

/-- C9 (amended): the wire length equals
`math.pi × (outer + inner diameter) / 2000 × turns`, i.e. it is proportional
to turns times the mean of the outer and inner diameters (the inner diameter
itself depends on turns, so the length is quadratic in turns); it is
proportional to turns alone exactly in the degenerate case
`wire_diameter + wire_spacing = 0`, with constant `math.pi × outer / 1000`. -/
theorem C9_wire_length_formula (c : CoilParameters) :
    c.wire_length = (math_pi * (c.outer_diameter + c.inner_diameter) / 2000) * (c.turns : ℚ) ∧
    (c.wire_diameter + c.wire_spacing = 0 →
      c.wire_length = (math_pi * c.outer_diameter / 1000) * (c.turns : ℚ)) := by
  constructor
  · rw [CoilParameters.wire_length]; ring
  · intro h
    rw [CoilParameters.wire_length, CoilParameters.inner_diameter, h]
    ring

/-- Witness for C9 at a concrete zero-pitch coil. -/
theorem C9_witness_wire_length :
    (CoilParameters.mk 2 0 0 50).wire_length =
      (math_pi * (CoilParameters.mk 2 0 0 50).outer_diameter / 1000) *
        (((CoilParameters.mk 2 0 0 50).turns : ℤ) : ℚ) :=
  (C9_wire_length_formula (CoilParameters.mk 2 0 0 50)).2 (by norm_num)

/-- C10: during a run the emitted progress values are exactly
`min(0.7, 0.3 + evaluation_count × 0.4 ÷ 100)` for the successive evaluation
counts 1, 2, ...; the emitted sequence is non-decreasing, every value lies
strictly above `0.3` and at most `0.7`, and the core never reports `1`. -/
theorem C10_progress_values (e : Engine) (fs : List ℚ) :
    run_progress e initState fs =
      (List.range fs.length).map (fun k => progress_value (k + 1)) ∧
    List.Chain' (fun a b => a ≤ b) (run_progress e initState fs) ∧
    (∀ p ∈ run_progress e initState fs, 0.3 < p ∧ p ≤ 0.7 ∧ p ≠ 1) := by
  have hfor := run_progress_formula e fs initState
  have hzero : initState.evaluation_count = 0 := rfl
  rw [hzero] at hfor
  have hfor' : run_progress e initState fs =
      (List.range fs.length).map (fun k => progress_value (k + 1)) := by
    rw [hfor]
    exact List.map_congr_left fun k hk => by norm_num
  refine ⟨hfor', ?_, ?_⟩
  · rw [hfor]
    exact mapped_progress_chain 0 fs.length
  · intro p hp
    rw [hfor'] at hp
    obtain ⟨kk, hkk, rfl⟩ := List.mem_map.mp hp
    exact ⟨progress_value_gt _ (by omega), progress_value_le _, progress_value_ne_one _⟩

/-- Witness for C10: the first emitted progress value of a concrete run. -/
theorem C10_witness_progress :
    0.3 < progress_value 1 ∧ progress_value 1 ≤ 0.7 ∧ progress_value 1 ≠ 1 := by
  refine (C10_progress_values sampleEngine [5]).2.2 (progress_value 1) ?_
  rw [(C10_progress_values sampleEngine [5]).1]
  simp

end WPT
